import Mathlib

/-!
Verification of the `@hulla/control` Result library.

The development shallowly embeds the constructors `ok` / `err`
(src/src/return/ok.ts and the `err` constructor embedded at the end of
src/tests/usecase.test.ts), the instance methods `match` / `pair` / `unwrap`,
the `tcf` try-catch-finally adapter (src/src/return/tcf.ts lines 107-133), and
the two `result` discriminators (src/src/return/result.ts lines 34-52 and
src/src/return/tcf.ts lines 218-227).

Payloads that may be JavaScript promises are modelled by `JSVal`; host
computations that may raise and touch state are modelled by `Eff`.
-/

namespace Control

/-- A JavaScript value slot that is either an already resolved value or a
`Promise` that will resolve to one. The runtime test `value instanceof Promise`
is the case distinction on this type. -/
inductive JSVal (α : Type) where
  | now (v : α)
  | promise (v : α)
  deriving DecidableEq, Repr

/-- Modelled from the spec: `src/lib/constants.ts` is not among the sources;
the spec (and the declared type `tag: "Ok"` in src/src/types.public.ts) fixes
the default success tag as the string literal `Ok`. -/
def DEFAULT_TAG_OK : String := "Ok"

/-- Modelled from the spec: `src/lib/constants.ts` is not among the sources;
the spec (and the declared type `tag: "Err"` in src/src/types.public.ts) fixes
the default failure tag as the string literal `Err`. -/
def DEFAULT_TAG_ERROR : String := "Err"

/-- The data of an instance built by `ok`: the `props` object
`{ tag: tag ?? DEFAULT_TAG_OK, value }` from src/src/return/ok.ts. -/
structure OkInst (α : Type) where
  value : α
  tag : String
  deriving DecidableEq, Repr

/-- The data of an instance built by `err`: the `props` object
`{ tag: tag ?? DEFAULT_TAG_ERROR, error }` from the `err` constructor. -/
structure ErrInst (ε : Type) where
  error : ε
  tag : String
  deriving DecidableEq, Repr

/-- The constructor `ok(value, tag?)` from src/src/return/ok.ts: wraps the value, the tag
defaulting by `tag ?? DEFAULT_TAG_OK` (an absent tag is `none`). -/
def ok (value : α) (tag : Option String) : OkInst α :=
  { value := value, tag := tag.getD DEFAULT_TAG_OK }

/-- The constructor `err(error, tag?)` from the `err` constructor (embedded in
src/tests/usecase.test.ts): wraps the error, the tag defaulting by
`tag ?? DEFAULT_TAG_ERROR`. -/
def err (error : ε) (tag : Option String) : ErrInst ε :=
  { error := error, tag := tag.getD DEFAULT_TAG_ERROR }

/-- The `match` method of an Ok instance (src/src/return/ok.ts lines 57-62):
when the wrapped value is a Promise it chains `value.then(v => onOk(v))` and
hands back a Promise of the handler output; otherwise it applies the handler
directly. The body references only the success handler. -/
def OkInst.matchOk (r : OkInst (JSVal α)) (onOk : α → β) : JSVal β :=
  match r.value with
  | .promise v => .promise (onOk v)
  | .now v => .now (onOk v)

/-- The `match` method of an Err instance (usecase.test.ts lines 178-183):
when the wrapped error is a Promise it chains `error.then(e => onErr(e))`;
otherwise it applies the failure handler directly. The body references only
the failure handler. -/
def ErrInst.matchErr (r : ErrInst (JSVal ε)) (onErr : ε → β) : JSVal β :=
  match r.error with
  | .promise e => .promise (onErr e)
  | .now e => .now (onErr e)

/-- The `pair` method of an Ok instance (src/src/return/ok.ts lines 63-68):
returns the tuple `[value, undefined]`, behind a Promise precisely when the
wrapped value is a Promise. The absent slot (`undefined`) is `none`. -/
def OkInst.pairOk (r : OkInst (JSVal α)) (ε : Type) : JSVal (Option α × Option ε) :=
  match r.value with
  | .promise v => .promise (some v, none)
  | .now v => .now (some v, none)

/-- The `pair` method of an Err instance (usecase.test.ts lines 184-189):
returns the tuple `[undefined, error]`, behind a Promise precisely when the
wrapped error is a Promise. -/
def ErrInst.pairErr (r : ErrInst (JSVal ε)) (α : Type) : JSVal (Option α × Option ε) :=
  match r.error with
  | .promise e => .promise (none, some e)
  | .now e => .now (none, some e)

/-- The `unwrap` method of an Ok instance (src/src/return/ok.ts line 69):
`() => value`, the raw stored payload, promise handle included. -/
def OkInst.unwrap (r : OkInst α) : α := r.value

/-- The `unwrap` method of an Err instance (usecase.test.ts line 190):
`() => error`, the raw stored payload, promise handle included. -/
def ErrInst.unwrap (r : ErrInst ε) : ε := r.error

/-- A Result is one of the two instance shapes, exactly as `Ok<T> | Err<E>`
in src/src/types.public.ts. -/
inductive Res (α ε : Type) where
  | okR (o : OkInst α)
  | errR (e : ErrInst ε)
  deriving DecidableEq, Repr

/-- Result-level `match`: dynamic dispatch to the method of whichever
constructor built the instance. The Ok method body never references the
failure handler and the Err method body never references the success
handler. -/
def Res.matchRes (r : Res (JSVal α) (JSVal ε)) (onOk : α → β) (onErr : ε → β) : JSVal β :=
  match r with
  | .okR o => o.matchOk onOk
  | .errR e => e.matchErr onErr

/-- Result-level `pair`: dispatch to the method of the concrete variant. -/
def Res.pairRes (r : Res (JSVal α) (JSVal ε)) : JSVal (Option α × Option ε) :=
  match r with
  | .okR o => o.pairOk ε
  | .errR e => e.pairErr α

/-- A host computation: from a world state it either returns a value or raises
a fault, yielding the next world state either way. -/
def Eff (σ F α : Type) : Type := σ → Except F α × σ

/-- The step `finallyFn?.()` from src/src/return/tcf.ts line 131: run the optional
cleanup step on the world state when it was supplied. -/
def runFinally (finallyFn : Option (σ → σ)) (s : σ) : σ :=
  match finallyFn with
  | none => s
  | some f => f s

/-- The adapter `tcf` (src/src/return/tcf.ts lines 107-133). Run the try operation; on
success return `ok(tryFn())` (tagged when `tagOk` is not undefined); when the
try operation raises, pass the fault to the catch transformer and return
`err(catchFn(error))` (tagged when `tagError` is not undefined); when the
catch transformer itself raises, that fault propagates out of `tcf`. The
finally step runs on every one of these paths, after the branch completes. -/
def tcf (tryFn : Eff σ F α) (catchFn : F → Eff σ F β) (finallyFn : Option (σ → σ))
    (tagError tagOk : Option String) (s : σ) : Except F (Res α β) × σ :=
  match tryFn s with
  | (.ok v, s1) =>
    (match tagOk with
     | none => (.ok (.okR (ok v none)), runFinally finallyFn s1)
     | some t => (.ok (.okR (ok v (some t))), runFinally finallyFn s1))
  | (.error f, s1) =>
    match catchFn f s1 with
    | (.ok e, s2) =>
      (match tagError with
       | none => (.ok (.errR (err e none)), runFinally finallyFn s2)
       | some t => (.ok (.errR (err e (some t))), runFinally finallyFn s2))
    | (.error f2, s2) => (.error f2, runFinally finallyFn s2)

/-- Lift a computation on `σ` to one on `σ × Nat` that leaves the counter
component untouched. Used to isolate the count of finally-step executions. -/
def liftEff (t : Eff σ F α) : Eff (σ × Nat) F α :=
  fun sn => ((t sn.1).1, ((t sn.1).2, sn.2))

/-- A fragment of the JavaScript value universe, large enough for the
discriminator: numbers, strings, and `Error` objects (name and message). -/
inductive Value where
  | num (n : Int)
  | str (s : String)
  | errObj (name message : String)
  deriving DecidableEq, Repr

/-- The predicate `defaultIsError` — `value instanceof Error` — defined identically in
src/src/return/result.ts line 7 and src/src/return/tcf.ts line 178. -/
def defaultIsError : Value → Bool
  | .errObj _ _ => true
  | _ => false

/-- The config object of the discriminators (`ResultConfig` in
src/src/types.private.ts): an optional predicate (which may itself raise a
fault when applied) and the two optional tags. -/
structure ResultConfig (F : Type) where
  isError : Option (Value → Except F Bool)
  tagError : Option String
  tagOk : Option String

/-- JavaScript truthiness of a possibly-absent string: `undefined` and the
empty string are falsy, every other string is truthy. -/
def truthyStr : Option String → Bool
  | none => false
  | some s => s != ""

/-- The discriminator `result` from src/src/return/result.ts lines 34-52. The predicate is
`config?.isError ?? defaultIsError`; `processValue` applies it to the value
once and branches: on the error side `config?.tagError ? err(val,
config.tagError) : err(val)` (truthiness test), symmetrically on the success
side. Returns the outcome — or the fault if the predicate raised one — paired
with the number of predicate invocations performed. -/
def resultImpl (value : Value) (config : Option (ResultConfig F)) :
    Except F (Res Value Value) × Nat :=
  let isError := (config.bind (fun c => c.isError)).getD (fun v => .ok (defaultIsError v))
  match isError value with
  | .error f => (.error f, 1)
  | .ok true =>
    if truthyStr (config.bind (fun c => c.tagError)) then
      (.ok (.errR (err value (config.bind (fun c => c.tagError)))), 1)
    else
      (.ok (.errR (err value none)), 1)
  | .ok false =>
    if truthyStr (config.bind (fun c => c.tagOk)) then
      (.ok (.okR (ok value (config.bind (fun c => c.tagOk)))), 1)
    else
      (.ok (.okR (ok value none)), 1)

/-- The discriminator `result` from src/src/return/tcf.ts lines 218-227. The predicate is
`config?.isError ?? defaultIsError`; if it holds the function returns
`err(value, config?.tagError ?? DEFAULT_TAG_ERROR)`, otherwise
`ok(value, config?.tagOk ?? DEFAULT_TAG_OK)` (nullish coalescing on the
tags). Returns the outcome — or the fault if the predicate raised one —
paired with the number of predicate invocations performed. -/
def resultTcf (value : Value) (config : Option (ResultConfig F)) :
    Except F (Res Value Value) × Nat :=
  let isError := (config.bind (fun c => c.isError)).getD (fun v => .ok (defaultIsError v))
  match isError value with
  | .error f => (.error f, 1)
  | .ok true =>
    (.ok (.errR (err value (some ((config.bind (fun c => c.tagError)).getD DEFAULT_TAG_ERROR)))), 1)
  | .ok false =>
    (.ok (.okR (ok value (some ((config.bind (fun c => c.tagOk)).getD DEFAULT_TAG_OK)))), 1)

/-- The tag policy that src/src/return/result.ts actually implements: a
supplied non-empty tag wins, an absent or empty tag falls back to the
default. -/
def tagOrDefault (t : Option String) (d : String) : String :=
  match t with
  | some s => if s = "" then d else s
  | none => d

/-- Decidable equality of host outcomes, so that discriminator runs can be
compared by evaluation. -/
instance instDecEqExcept [DecidableEq F] [DecidableEq α] : DecidableEq (Except F α) :=
  fun x y =>
    match x, y with
    | .ok a, .ok b =>
      if h : a = b then Decidable.isTrue (h ▸ rfl)
      else Decidable.isFalse (fun hc => h (Except.ok.inj hc))
    | .ok _, .error _ => Decidable.isFalse (fun hc => Except.noConfusion hc)
    | .error _, .ok _ => Decidable.isFalse (fun hc => Except.noConfusion hc)
    | .error a, .error b =>
      if h : a = b then Decidable.isTrue (h ▸ rfl)
      else Decidable.isFalse (fun hc => h (Except.error.inj hc))

/-- Claim C1: for every Ok instance, `match` returns the success handler
applied to the resolved payload (directly when resolved, behind a promise when
pending) and its outcome never depends on the failure handler; symmetrically
for every Err instance `match` returns the failure handler applied to the
resolved payload and never depends on the success handler — exactly one of
the two handlers is invoked. -/
theorem match_exactly_one_handler (v : α) (e : ε) (pv : JSVal α) (pe : JSVal ε)
    (t u : Option String) (f fA : α → β) (g gA : ε → β) :
    Res.matchRes (.okR (ok (JSVal.now v) t)) f g = .now (f v)
    ∧ Res.matchRes (.okR (ok (JSVal.promise v) t)) f g = .promise (f v)
    ∧ Res.matchRes (.okR (ok pv t)) f g = Res.matchRes (.okR (ok pv t)) f gA
    ∧ Res.matchRes (.errR (err (JSVal.now e) u)) f g = .now (g e)
    ∧ Res.matchRes (.errR (err (JSVal.promise e) u)) f g = .promise (g e)
    ∧ Res.matchRes (.errR (err pe u)) f g = Res.matchRes (.errR (err pe u)) fA g :=
  ⟨rfl, rfl, rfl, rfl, rfl, rfl⟩

/-- Claim C2: when the try operation completes with value `v`, `tcf` returns
`ok(v, tagOk)`; when it raises fault `f` and the catch transformer turns `f`
into `e`, `tcf` returns `err(e, tagError)` — the transformer output, not the
raw fault, is wrapped. -/
theorem tcf_success_and_catch_paths (tryFn : Eff σ F α) (catchFn : F → Eff σ F β)
    (finallyFn : Option (σ → σ)) (te tk : Option String) (s s1 s2 : σ)
    (v : α) (f : F) (e : β) :
    (tryFn s = (.ok v, s1) →
      (tcf tryFn catchFn finallyFn te tk s).1 = .ok (.okR (ok v tk)))
    ∧ (tryFn s = (.error f, s1) → catchFn f s1 = (.ok e, s2) →
      (tcf tryFn catchFn finallyFn te tk s).1 = .ok (.errR (err e te))) := by
  constructor
  · intro hok
    cases tk <;> simp [tcf, hok]
  · intro hraise hcatch
    cases te <;> simp [tcf, hraise, hcatch]

/-- Witness for C2 at concrete inputs: a try operation returning 3 yields
`ok 3`, and a try operation raising a fault whose transformer returns 7
yields `err 7`. -/
theorem tcf_success_and_catch_paths_witness :
    (tcf (fun s : Unit => ((Except.ok 3 : Except String Int), s))
      (fun _ s => ((Except.ok 7 : Except String Int), s)) none none none ()).1
      = Except.ok (Res.okR (ok 3 none))
    ∧ (tcf (fun s : Unit => ((Except.error "boom" : Except String Int), s))
      (fun _ s => ((Except.ok 7 : Except String Int), s)) none none none ()).1
      = Except.ok (Res.errR (err 7 none)) :=
  ⟨(tcf_success_and_catch_paths (fun s : Unit => ((Except.ok 3 : Except String Int), s))
      (fun _ s => ((Except.ok 7 : Except String Int), s)) none none none () () () 3 "boom" 7).1 rfl,
   (tcf_success_and_catch_paths (fun s : Unit => ((Except.error "boom" : Except String Int), s))
      (fun _ s => ((Except.ok 7 : Except String Int), s)) none none none () () () 3 "boom" 7).2 rfl rfl⟩

/-- Claim C3: when a finally step is supplied, `tcf` executes it exactly once
per invocation — whatever the try operation and the catch transformer do,
including the transformer itself raising. The try and catch computations act
on the plain state component while the supplied finally step drives a counter
that ends at exactly one more than it started. -/
theorem tcf_finally_exactly_once (tryFn : Eff σ F α) (catchFn : F → Eff σ F β)
    (cleanup : σ → σ) (te tk : Option String) (s : σ) (n : Nat) :
    ((tcf (liftEff tryFn) (fun f2 => liftEff (catchFn f2))
      (some (fun p => (cleanup p.1, p.2 + 1))) te tk (s, n)).2).2 = n + 1 := by
  rcases htr : tryFn s with ⟨r1, s1⟩
  cases r1 with
  | ok v => cases tk <;> simp [tcf, liftEff, runFinally, htr]
  | error f =>
    rcases hc : catchFn f s1 with ⟨r2, s2⟩
    cases r2 <;> cases te <;> simp [tcf, liftEff, runFinally, htr, hc]

/-- Claim C4 (amended): the discriminator of src/src/return/result.ts applies
the predicate to the value exactly once; when it holds the value is wrapped
as an Err tagged with `tagError` when that is a non-empty string and with the
default error tag otherwise, and symmetrically as an Ok with `tagOk`; with no
config the default instanceof-Error predicate and the default tags apply. -/
theorem result_discriminator_branches (value : Value) (p : Value → Bool)
    (te tk : Option String) :
    resultImpl value (some (⟨some (fun v => .ok (p v)), te, tk⟩ : ResultConfig Unit))
      = (.ok (if p value
          then Res.errR (err value (some (tagOrDefault te DEFAULT_TAG_ERROR)))
          else Res.okR (ok value (some (tagOrDefault tk DEFAULT_TAG_OK)))), 1)
    ∧ resultImpl value (none : Option (ResultConfig Unit))
      = (.ok (if defaultIsError value
          then Res.errR (err value (some DEFAULT_TAG_ERROR))
          else Res.okR (ok value (some DEFAULT_TAG_OK))), 1) := by
  constructor
  · cases hpv : p value with
    | false =>
      cases tk with
      | none => simp [resultImpl, truthyStr, hpv, tagOrDefault, ok]
      | some t =>
        by_cases ht : t = "" <;>
          simp [resultImpl, truthyStr, hpv, tagOrDefault, ok, ht]
    | true =>
      cases te with
      | none => simp [resultImpl, truthyStr, hpv, tagOrDefault, err]
      | some t =>
        by_cases ht : t = "" <;>
          simp [resultImpl, truthyStr, hpv, tagOrDefault, err, ht]
  · cases hd : defaultIsError value <;>
      simp [resultImpl, truthyStr, hd, err, ok]

/-- Counterexample to C4 as stated: at value 42 with config `{ tagOk: "" }`
the claimed tag is `"" ?? DEFAULT_TAG_OK`, which under nullish coalescing is
the empty string, but the code produces the default tag `Ok` instead (the
truthiness test discards the supplied empty tag). -/
theorem result_discriminator_empty_tag_cex :
    (resultImpl (Value.num 42)
      (some (⟨none, none, some ""⟩ : ResultConfig Unit))).1
      = Except.ok (Res.okR ⟨Value.num 42, "Ok"⟩)
    ∧ (resultImpl (Value.num 42)
      (some (⟨none, none, some ""⟩ : ResultConfig Unit))).1
      ≠ Except.ok (Res.okR ⟨Value.num 42, ""⟩) := by
  constructor
  · rfl
  · decide

/-- Claim C5: `match` preserves the synchronous or asynchronous nature of the
payload exactly — a pending payload gives a pending result carrying the
handler output, a resolved payload gives the handler output directly with no
pending wrapper; `pair` obeys the same propagation rule. -/
theorem match_preserves_pendingness (v : α) (e : ε) (t u : Option String)
    (f : α → β) (g : ε → β) :
    Res.matchRes (.okR (ok (JSVal.promise v) t)) f g = .promise (f v)
    ∧ Res.matchRes (.okR (ok (JSVal.now v) t)) f g = .now (f v)
    ∧ Res.matchRes (.errR (err (JSVal.promise e) u)) f g = .promise (g e)
    ∧ Res.matchRes (.errR (err (JSVal.now e) u)) f g = .now (g e)
    ∧ Res.pairRes (.okR (ok (JSVal.promise v) t)) = (.promise (some v, (none : Option ε)))
    ∧ Res.pairRes (.okR (ok (JSVal.now v) t)) = (.now (some v, (none : Option ε))) :=
  ⟨rfl, rfl, rfl, rfl, rfl, rfl⟩

/-- Claim C6: `pair` returns the two-slot tuple with exactly one slot
populated — `(v, undefined)` for Ok, `(undefined, e)` for Err — and when the
payload is pending the tuple itself is pending, resolving once the payload
does. -/
theorem pair_exactly_one_slot (v : α) (e : ε) (t u : Option String) :
    Res.pairRes (.okR (ok (JSVal.now v) t)) = (.now (some v, (none : Option ε)))
    ∧ Res.pairRes (.errR (err (JSVal.now e) u)) = (.now ((none : Option α), some e))
    ∧ Res.pairRes (.okR (ok (JSVal.promise v) t)) = (.promise (some v, (none : Option ε)))
    ∧ Res.pairRes (.errR (err (JSVal.promise e) u)) = (.promise ((none : Option α), some e)) :=
  ⟨rfl, rfl, rfl, rfl⟩

/-- Claim C7: `unwrap` is the identity round-trip on the stored payload —
`ok(v).unwrap() = v` and `err(e).unwrap() = e` — with no branching and no
resolution: a pending payload comes back as the pending handle itself. -/
theorem unwrap_identity (pv : JSVal α) (pe : JSVal ε) (t u : Option String) :
    (ok pv t).unwrap = pv ∧ (err pe u).unwrap = pe :=
  ⟨rfl, rfl⟩

/-- Claim C8: tagging only overlays the tag field — the defaults are `Ok`
and `Err`, a supplied tag replaces exactly that field, the payload fields are
untouched, and instances differing only in tag behave identically under
`match`, `pair` and `unwrap`. -/
theorem tagging_overlay_only (pv : JSVal α) (pe : JSVal ε) (t : String)
    (t1 t2 : Option String) (f : α → β) (g : ε → β) :
    (ok pv none).tag = DEFAULT_TAG_OK
    ∧ (err pe none).tag = DEFAULT_TAG_ERROR
    ∧ DEFAULT_TAG_OK = "Ok" ∧ DEFAULT_TAG_ERROR = "Err"
    ∧ (ok pv (some t)).tag = t ∧ (err pe (some t)).tag = t
    ∧ (ok pv t1).value = pv ∧ (err pe t1).error = pe
    ∧ (ok pv t1).matchOk f = (ok pv t2).matchOk f
    ∧ (ok pv t1).pairOk ε = (ok pv t2).pairOk ε
    ∧ (ok pv t1).unwrap = (ok pv t2).unwrap
    ∧ (err pe t1).matchErr g = (err pe t2).matchErr g
    ∧ (err pe t1).pairErr α = (err pe t2).pairErr α
    ∧ (err pe t1).unwrap = (err pe t2).unwrap :=
  ⟨rfl, rfl, rfl, rfl, rfl, rfl, rfl, rfl, rfl, rfl, rfl, rfl, rfl, rfl⟩

/-- Claim C9: when the caller-supplied predicate raises a fault on the value,
the discriminator does not catch it — the fault propagates out (after the one
predicate application) and no Ok or Err instance is constructed. -/
theorem result_predicate_fault_propagates (value : Value) (p : Value → Except F Bool)
    (f : F) (te tk : Option String) (h : p value = .error f) :
    resultImpl value (some ⟨some p, te, tk⟩) = (.error f, 1) := by
  simp [resultImpl, h]

/-- Witness for C9: a predicate that raises the fault `boom` on the value 0
makes the discriminator propagate exactly that fault. -/
theorem result_predicate_fault_propagates_witness :
    ((fun _ : Value => (Except.error "boom" : Except String Bool)) (Value.num 0)
      = Except.error "boom")
    ∧ resultImpl (Value.num 0)
      (some (⟨some (fun _ => .error "boom"), none, none⟩ : ResultConfig String))
      = (.error "boom", 1) :=
  ⟨rfl, result_predicate_fault_propagates (Value.num 0) (fun _ => .error "boom")
    "boom" none none rfl⟩

/-- Claim C10 (amended): the two discriminator implementations agree — same
variant, same payload, same tag, same predicate-fault propagation and same
single predicate application — for every value and every config whose
supplied tags are non-empty strings; a supplied empty-string tag makes the
tags differ, the variant and payload still agreeing. -/
theorem result_impls_equiv (value : Value) (config : Option (ResultConfig F))
    (hte : ∀ t, config.bind (fun c => c.tagError) = some t → t ≠ "")
    (hto : ∀ t, config.bind (fun c => c.tagOk) = some t → t ≠ "") :
    resultImpl value config = resultTcf value config := by
  unfold resultImpl resultTcf
  cases hp : (config.bind (fun c => c.isError)).getD (fun v => Except.ok (defaultIsError v)) value with
  | error f => simp [hp]
  | ok b =>
    cases b with
    | false =>
      cases hcto : config.bind (fun c => c.tagOk) with
      | none => simp [hp, hcto, truthyStr, ok]
      | some t =>
        have ht : t ≠ "" := hto t hcto
        simp [hp, hcto, truthyStr, ok, ht]
    | true =>
      cases hcte : config.bind (fun c => c.tagError) with
      | none => simp [hp, hcte, truthyStr, err]
      | some t =>
        have ht : t ≠ "" := hte t hcte
        simp [hp, hcte, truthyStr, err, ht]

/-- Witness for C10 (amended): with no config the two implementations give
the same Result for the value 1. -/
theorem result_impls_equiv_witness :
    resultImpl (Value.num 1) (none : Option (ResultConfig Unit))
      = resultTcf (Value.num 1) none :=
  result_impls_equiv (Value.num 1) none (by simp) (by simp)

/-- Counterexample to C10 as stated: on an Error object with config
`{ tagError: "" }` the implementation in result.ts produces the default tag
`Err` (truthiness discards the empty tag) while the one in tcf.ts keeps the
empty tag via nullish coalescing, so the two Results differ. -/
theorem result_impls_differ_cex :
    resultImpl (Value.errObj "Error" "x")
      (some (⟨none, some "", none⟩ : ResultConfig Unit))
      ≠ resultTcf (Value.errObj "Error" "x")
      (some (⟨none, some "", none⟩ : ResultConfig Unit)) := by
  decide

end Control
